import Mathlib

/-!
Verification development for the wound-translation-engine repository.

The repository has two independent pieces:
- `terra_gaia/translator/sigil.py`: `SigilGenerator`, a deterministic
  procedural image generator.  A category ("wound"/chakra) selects a fixed
  color palette and a shape grammar; a seed string ("solver id") is hashed
  with SHA-256 and the first five digest bytes drive five drawing
  parameters.
- `terra_gaia/translator/frequency.py`: `FrequencyMapper`, a lookup from a
  numeric frequency to a chakra name via inclusive ranges.

This file shallowly embeds those modules.  Python floats are modelled as
exact rationals (the arithmetic involved, for example `(b / 255.0) * 360`,
is treated as real-number arithmetic, which is how the specification states
it).  The external libraries used by the code are modelled as follows:
`hashlib.sha256` is implemented in full below (with conformance test
vectors); `pathlib.Path` string normalization and `parent` are implemented
below following POSIX pure-path semantics; PIL drawing is modelled as a
canvas description (mode, size, fill color) together with the list of draw
commands issued on it, with `math.cos`/`math.sin` (transcendental, hence
outside exact rational arithmetic) abstracted as an arbitrary `Trig`
argument taking angles in degrees.
-/

namespace WoundTranslation

/-! ## SHA-256 over byte lists (model of `hashlib.sha256(...).digest()`) -/

/-- Truncation to a 32-bit word. -/
def w32 (x : Nat) : Nat := x % 4294967296

/-- Right rotation of a 32-bit word by `n` bits. -/
def rotWord (n x : Nat) : Nat := w32 ((x >>> n) ||| (x <<< (32 - n)))

/-- SHA-256 big sigma 0. -/
def sumA0 (x : Nat) : Nat := rotWord 2 x ^^^ rotWord 13 x ^^^ rotWord 22 x

/-- SHA-256 big sigma 1. -/
def sumE1 (x : Nat) : Nat := rotWord 6 x ^^^ rotWord 11 x ^^^ rotWord 25 x

/-- SHA-256 small sigma 0. -/
def sprW0 (x : Nat) : Nat := rotWord 7 x ^^^ rotWord 18 x ^^^ (x >>> 3)

/-- SHA-256 small sigma 1. -/
def sprW1 (x : Nat) : Nat := rotWord 17 x ^^^ rotWord 19 x ^^^ (x >>> 10)

/-- SHA-256 choice function (`not x` is `x xor 0xffffffff` on 32-bit words). -/
def chF (x y z : Nat) : Nat := (x &&& y) ^^^ ((x ^^^ 4294967295) &&& z)

/-- SHA-256 majority function. -/
def majF (x y z : Nat) : Nat := (x &&& y) ^^^ (x &&& z) ^^^ (y &&& z)

/-- The 64 SHA-256 round constants. -/
def sha256K : List Nat :=
  [1116352408, 1899447441, 3049323471, 3921009573, 961987163,
   1508970993, 2453635748, 2870763221, 3624381080, 310598401,
   607225278, 1426881987, 1925078388, 2162078206, 2614888103,
   3248222580, 3835390401, 4022224774, 264347078, 604807628,
   770255983, 1249150122, 1555081692, 1996064986, 2554220882,
   2821834349, 2952996808, 3210313671, 3336571891, 3584528711,
   113926993, 338241895, 666307205, 773529912, 1294757372,
   1396182291, 1695183700, 1986661051, 2177026350, 2456956037,
   2730485921, 2820302411, 3259730800, 3345764771, 3516065817,
   3600352804, 4094571909, 275423344, 430227734, 506948616,
   659060556, 883997877, 958139571, 1322822218, 1537002063,
   1747873779, 1955562222, 2024104815, 2227730452, 2361852424,
   2428436474, 2756734187, 3204031479, 3329325298]

/-- The eight 32-bit words of SHA-256 working state. -/
structure Hash8 where
  a : Nat
  b : Nat
  c : Nat
  d : Nat
  e : Nat
  f : Nat
  g : Nat
  h : Nat
deriving DecidableEq

/-- SHA-256 initial hash value. -/
def sha256Init : Hash8 :=
  ⟨1779033703, 3144134277, 1013904242, 2773480762,
   1359893119, 2600822924, 528734635, 1541459225⟩

/-- One SHA-256 compression round; `wk` is the pair (schedule word, constant). -/
def sha256Round (st : Hash8) (wk : Nat × Nat) : Hash8 :=
  let t1 := w32 (st.h + sumE1 st.e + chF st.e st.f st.g + wk.2 + wk.1)
  let t2 := w32 (sumA0 st.a + majF st.a st.b st.c)
  ⟨w32 (t1 + t2), st.a, st.b, st.c, w32 (st.d + t1), st.e, st.f, st.g⟩

/-- Extend the message schedule `n` more words; `acc` is in reverse order
(most recently produced word first). -/
def extendSchedule : Nat → List Nat → List Nat
  | 0, acc => acc
  | n + 1, acc =>
      extendSchedule n
        (w32 (sprW1 (acc.getD 1 0) + acc.getD 6 0 + sprW0 (acc.getD 14 0) + acc.getD 15 0) :: acc)

/-- Full 64-word message schedule from the 16 words of a block. -/
def schedule (ws : List Nat) : List Nat := (extendSchedule 48 ws.reverse).reverse

/-- Group a block of 64 bytes into 16 big-endian 32-bit words. -/
def toWords : List Nat → List Nat
  | b0 :: b1 :: b2 :: b3 :: rest =>
      (b0 * 16777216 + b1 * 65536 + b2 * 256 + b3) :: toWords rest
  | _ => []

/-- SHA-256 compression of one 64-byte block into the running hash. -/
def sha256Compress (H : Hash8) (block : List Nat) : Hash8 :=
  let st := ((schedule (toWords block)).zip sha256K).foldl sha256Round H
  ⟨w32 (H.a + st.a), w32 (H.b + st.b), w32 (H.c + st.c), w32 (H.d + st.d),
   w32 (H.e + st.e), w32 (H.f + st.f), w32 (H.g + st.g), w32 (H.h + st.h)⟩

/-- Big-endian byte decomposition: `beBytes n x` is the `n` low-order bytes
of `x`, most significant first. -/
def beBytes : Nat → Nat → List Nat
  | 0, _ => []
  | n + 1, x => ((x >>> (8 * n)) % 256) :: beBytes n x

/-- SHA-256 padding: append `0x80`, zero bytes up to 56 mod 64, then the
64-bit big-endian bit length. -/
def padBytes (msg : List Nat) : List Nat :=
  msg ++ 128 :: List.replicate ((119 - msg.length % 64) % 64) 0 ++ beBytes 8 (8 * msg.length)

/-- Split a byte list into successive 64-byte blocks (fuel-driven so that
recursion is structural; the fuel is always sufficient). -/
def toBlocksFuel : Nat → List Nat → List (List Nat)
  | 0, _ => []
  | _, [] => []
  | fuel + 1, l => l.take 64 :: toBlocksFuel fuel (l.drop 64)

/-- Split a byte list into successive 64-byte blocks. -/
def toBlocks (l : List Nat) : List (List Nat) := toBlocksFuel l.length l

/-- The eight final SHA-256 hash words of a byte message. -/
def sha256Words (msg : List Nat) : Hash8 :=
  (toBlocks (padBytes msg)).foldl sha256Compress sha256Init

/-- Big-endian bytes of one 32-bit word. -/
def wordBytes (w : Nat) : List Nat :=
  [(w >>> 24) % 256, (w >>> 16) % 256, (w >>> 8) % 256, w % 256]

/-- The 32-byte SHA-256 digest of a byte message, the model of
`hashlib.sha256(msg).digest()`. -/
def sha256Digest (msg : List Nat) : List Nat :=
  let H := sha256Words msg
  [H.a, H.b, H.c, H.d, H.e, H.f, H.g, H.h].flatMap wordBytes

/-- UTF-8 encoding of one character (model of Python `str.encode()`,
per character). -/
def encodeChar (c : Char) : List Nat :=
  let n := c.toNat
  if n < 128 then [n]
  else if n < 2048 then [192 + n / 64, 128 + n % 64]
  else if n < 65536 then [224 + n / 4096, 128 + n / 64 % 64, 128 + n % 64]
  else [240 + n / 262144, 128 + n / 4096 % 64, 128 + n / 64 % 64, 128 + n % 64]

/-- UTF-8 byte encoding of a string, the model of Python `s.encode()`. -/
def strEncode (s : String) : List Nat := s.data.flatMap encodeChar

example : strEncode "abc" = [97, 98, 99] := by decide

/-- Conformance: SHA-256 of the empty message (standard test vector). -/
example : sha256Digest [] =
    [227, 176, 196, 66, 152, 252, 28, 20, 154, 251, 244, 200,
     153, 111, 185, 36, 39, 174, 65, 228, 100, 155, 147, 76,
     164, 149, 153, 27, 120, 82, 184, 85] := by decide

/-- Conformance: SHA-256 of "abc" (standard test vector). -/
example : sha256Digest (strEncode "abc") =
    [186, 120, 22, 191, 143, 1, 207, 234, 65, 65, 64, 222,
     93, 174, 34, 35, 176, 3, 97, 163, 150, 23, 122, 156,
     180, 16, 255, 97, 242, 0, 21, 173] := by decide

/-! ## Derived parameters (`SigilGenerator._calculate_variations`) -/

/-- The SHA-256 digest bytes of a seed string, the model of
`hashlib.sha256(self.solver_id.encode()).digest()`. -/
def hashBytes (solver_id : String) : List Nat := sha256Digest (strEncode solver_id)

/-- Byte `i` of the digest of a seed string (`hash_bytes[i]` in the source;
indices used are 0..4, always in range of the 32-byte digest). -/
def hashByte (solver_id : String) (i : Nat) : Nat := (hashBytes solver_id).getD i 0

/-- The five derived drawing parameters.  Reals are modelled as rationals:
`rotation_offset` and `scale_factor` are float-valued in the source, the
three counts are Python ints. -/
structure Variations where
  rotation_offset : ℚ
  layer_count : Nat
  ray_count : Nat
  line_weight : Nat
  scale_factor : ℚ
deriving DecidableEq

/-- Model of `SigilGenerator._calculate_variations`: hash the solver id with
SHA-256 and map the first five digest bytes to the five parameters.  It is a
pure function of the solver id (no other inputs). -/
def calculate_variations (solver_id : String) : Variations :=
  { rotation_offset := (hashByte solver_id 0 : ℚ) / 255 * 360
    layer_count := 3 + hashByte solver_id 1 % 5
    ray_count := 6 + hashByte solver_id 2 % 7
    line_weight := 1 + hashByte solver_id 3 % 5
    scale_factor := 7 / 10 + (hashByte solver_id 4 : ℚ) / 255 * (6 / 10) }

/-- The specification's derivation formulas, stated over five arbitrary
digest bytes exactly as written in spec section 4.2 (for the refinement
claim C3). -/
def specDerive (b0 b1 b2 b3 b4 : Nat) : Variations :=
  { rotation_offset := (b0 : ℚ) / 255 * 360
    layer_count := 3 + b1 % 5
    ray_count := 6 + b2 % 7
    line_weight := 1 + b3 % 5
    scale_factor := 7 / 10 + (b4 : ℚ) / 255 * (6 / 10) }

/-- Every byte of one hash word is below 256. -/
lemma wordBytes_lt {w b : Nat} (hb : b ∈ wordBytes w) : b < 256 := by
  simp only [wordBytes, List.mem_cons, List.not_mem_nil, or_false] at hb
  rcases hb with rfl | rfl | rfl | rfl <;> exact Nat.mod_lt _ (by norm_num)

/-- Every byte of a SHA-256 digest is below 256. -/
lemma sha256Digest_lt {msg : List Nat} {b : Nat} (hb : b ∈ sha256Digest msg) :
    b < 256 := by
  simp only [sha256Digest, List.mem_flatMap] at hb
  obtain ⟨w, _, hw⟩ := hb
  exact wordBytes_lt hw

/-- Indexing with default 0 into a list of bytes below 256 stays below 256. -/
lemma getD_lt_256 : ∀ (l : List Nat) (i : Nat), (∀ b ∈ l, b < 256) → l.getD i 0 < 256 := by
  intro l
  induction l with
  | nil => intro i _; simp [List.getD]
  | cons x xs ih =>
    intro i h
    cases i with
    | zero => simpa using h x (List.mem_cons_self x xs)
    | succ j =>
      simp only [List.getD_cons_succ]
      exact ih j fun b hb => h b (List.mem_cons_of_mem _ hb)

/-- Every digest byte of a seed is at most 255. -/
lemma hashByte_le (s : String) (i : Nat) : hashByte s i ≤ 255 :=
  Nat.lt_succ_iff.mp (getD_lt_256 _ i fun _ hb => sha256Digest_lt hb)

/-! ## Claims C1, C3, C6 about parameter derivation -/

/-- C1 (amended): for every seed string the five derived parameters satisfy
rotation_offset ∈ [0,360] (closed on the right: the value 360 is attained
exactly when the first digest byte is 255), layer_count ∈ [3,7],
ray_count ∈ [6,12], line_weight ∈ [1,5], scale_factor ∈ [0.7,1.3]. -/
theorem C1_parameter_ranges (seed : String) :
    0 ≤ (calculate_variations seed).rotation_offset ∧
    (calculate_variations seed).rotation_offset ≤ 360 ∧
    3 ≤ (calculate_variations seed).layer_count ∧
    (calculate_variations seed).layer_count ≤ 7 ∧
    6 ≤ (calculate_variations seed).ray_count ∧
    (calculate_variations seed).ray_count ≤ 12 ∧
    1 ≤ (calculate_variations seed).line_weight ∧
    (calculate_variations seed).line_weight ≤ 5 ∧
    7 / 10 ≤ (calculate_variations seed).scale_factor ∧
    (calculate_variations seed).scale_factor ≤ 13 / 10 := by
  have h0 : ((hashByte seed 0 : ℚ)) ≤ 255 := by exact_mod_cast hashByte_le seed 0
  have h4 : ((hashByte seed 4 : ℚ)) ≤ 255 := by exact_mod_cast hashByte_le seed 4
  have q0 : ((hashByte seed 0 : ℚ)) / 255 ≤ 1 := (div_le_one (by norm_num)).mpr h0
  have q4 : ((hashByte seed 4 : ℚ)) / 255 ≤ 1 := (div_le_one (by norm_num)).mpr h4
  have q0n : (0 : ℚ) ≤ (hashByte seed 0 : ℚ) / 255 := by positivity
  have q4n : (0 : ℚ) ≤ (hashByte seed 4 : ℚ) / 255 := by positivity
  simp only [calculate_variations]
  refine ⟨by positivity, by linarith, by omega, by omega, by omega, by omega,
    by omega, by omega, by linarith, by linarith⟩

/-- C1 counterexample to the claim as stated: the seed "seed580" has SHA-256
first digest byte 255, so its rotation_offset is exactly 360, which is not
in the right-open range [0,360). -/
theorem C1_rotation_counterexample :
    ¬ ((calculate_variations "seed580").rotation_offset < 360) := by
  have h : hashByte "seed580" 0 = 255 := by decide
  simp only [calculate_variations, h]
  norm_num

/-- C3: parameter derivation computes the SHA-256 digest of the seed's byte
encoding and maps its first five bytes b0..b4 exactly by the spec's five
formulas; it is a pure function of the seed (it takes no other input). -/
theorem C3_derivation_refines_spec (seed : String) :
    calculate_variations seed =
      specDerive (hashByte seed 0) (hashByte seed 1) (hashByte seed 2)
        (hashByte seed 3) (hashByte seed 4) := rfl

/-- C6 (amended): two seeds yield different parameter sets as soon as their
digests differ at byte 0 or byte 4, or differ in byte 1 mod 5, byte 2 mod 7,
or byte 3 mod 5.  (A difference confined to the first five bytes that
preserves those residues does not change the parameters.) -/
theorem C6_parameters_differ (s1 s2 : String)
    (h : hashByte s1 0 ≠ hashByte s2 0 ∨ hashByte s1 1 % 5 ≠ hashByte s2 1 % 5 ∨
         hashByte s1 2 % 7 ≠ hashByte s2 2 % 7 ∨ hashByte s1 3 % 5 ≠ hashByte s2 3 % 5 ∨
         hashByte s1 4 ≠ hashByte s2 4) :
    calculate_variations s1 ≠ calculate_variations s2 := by
  intro heq
  have hr := congrArg Variations.rotation_offset heq
  have hl := congrArg Variations.layer_count heq
  have hy := congrArg Variations.ray_count heq
  have hw := congrArg Variations.line_weight heq
  have hs := congrArg Variations.scale_factor heq
  simp only [calculate_variations] at hr hl hy hw hs
  rcases h with h | h | h | h | h
  · field_simp at hr
    exact h hr
  · omega
  · omega
  · omega
  · field_simp at hs
    exact h hs

/-- C6 counterexample to the claim as stated: the seeds "w3212" and "w3400"
have SHA-256 digests that differ within the first five bytes (at bytes 1, 2
and 3), yet all five derived parameters coincide. -/
theorem C6_counterexample :
    (hashBytes "w3212").take 5 ≠ (hashBytes "w3400").take 5 ∧
    calculate_variations "w3212" = calculate_variations "w3400" := by
  constructor
  · decide
  · have h10 : hashByte "w3212" 0 = 68 := by decide
    have h11 : hashByte "w3212" 1 = 16 := by decide
    have h12 : hashByte "w3212" 2 = 143 := by decide
    have h13 : hashByte "w3212" 3 = 175 := by decide
    have h14 : hashByte "w3212" 4 = 181 := by decide
    have h20 : hashByte "w3400" 0 = 68 := by decide
    have h21 : hashByte "w3400" 1 = 151 := by decide
    have h22 : hashByte "w3400" 2 = 115 := by decide
    have h23 : hashByte "w3400" 3 = 200 := by decide
    have h24 : hashByte "w3400" 4 = 181 := by decide
    simp only [calculate_variations, h10, h11, h12, h13, h14, h20, h21, h22, h23, h24]

/-- C6 witness: the spec's own example seeds "solver_alpha" and
"solver_beta" differ at digest byte 0, so the theorem applies and their
parameter sets differ. -/
theorem C6_witness :
    calculate_variations "solver_alpha" ≠ calculate_variations "solver_beta" :=
  C6_parameters_differ "solver_alpha" "solver_beta" (Or.inl (by decide))

/-! ## Category resolution (`SigilGenerator.__init__`) -/

/-- The `FREQUENCY_MAP` class attribute: chakra frequency label to wound
type, in source order. -/
def FREQUENCY_MAP : List (String × String) :=
  [("396 Hz", "root"), ("417 Hz", "sacral"), ("528 Hz", "solar_plexus"),
   ("639 Hz", "heart"), ("741 Hz", "throat"), ("852 Hz", "third_eye"),
   ("963 Hz", "crown")]

/-- An RGB color palette for one chakra, with 8-bit channels. -/
structure Palette where
  primary : Nat × Nat × Nat
  secondary : Nat × Nat × Nat
  accent : Nat × Nat × Nat
  background : Nat × Nat × Nat
deriving DecidableEq

/-- The `COLOR_PALETTES` class attribute, in source order. -/
def COLOR_PALETTES : List (String × Palette) :=
  [("root", ⟨(196, 30, 58), (139, 0, 0), (255, 69, 0), (20, 10, 10)⟩),
   ("sacral", ⟨(255, 140, 0), (255, 165, 0), (255, 215, 0), (20, 15, 5)⟩),
   ("solar_plexus", ⟨(255, 215, 0), (255, 255, 0), (255, 250, 205), (20, 20, 5)⟩),
   ("heart", ⟨(0, 128, 0), (34, 139, 34), (144, 238, 144), (5, 15, 5)⟩),
   ("throat", ⟨(0, 191, 255), (30, 144, 255), (135, 206, 250), (5, 10, 20)⟩),
   ("third_eye", ⟨(75, 0, 130), (138, 43, 226), (147, 112, 219), (10, 5, 20)⟩),
   ("crown", ⟨(138, 43, 226), (148, 0, 211), (218, 112, 214), (15, 5, 20)⟩)]

/-- The seven wound-type keys of `COLOR_PALETTES`. -/
def knownWounds : List String :=
  ["root", "sacral", "solar_plexus", "heart", "throat", "third_eye", "crown"]

/-- Model of Python `str.lower()` (character-wise ASCII lowercasing; all
category keys are ASCII, so Unicode-specific lowercasings are irrelevant to
every lookup this program performs). -/
def lowerString (s : String) : String := String.mk (s.data.map Char.toLower)

/-- A generator instance: the five attributes `__init__` stores on `self`. -/
structure SigilGenerator where
  frequency : String
  wound : String
  solver_id : String
  colors : Palette
  variations : Variations
deriving DecidableEq

/-- Junk palette used only as the (provably unreachable) default of a total
dictionary indexing. -/
def defaultPalette : Palette := ⟨(0, 0, 0), (0, 0, 0), (0, 0, 0), (0, 0, 0)⟩

/-- Model of `SigilGenerator.__init__`: lowercase the wound string; if it is
not a key of `COLOR_PALETTES`, fall back to `FREQUENCY_MAP[frequency]` when
that lookup succeeds, else raise `ValueError` (modelled as `Except.error`
carrying the message, so no instance is produced on failure).  On success it
stores the resolved palette and derived variations. -/
def SigilGenerator.init (frequency wound solver_id : String) :
    Except String SigilGenerator :=
  match COLOR_PALETTES.lookup (lowerString wound) with
  | some pal =>
      Except.ok ⟨frequency, lowerString wound, solver_id, pal, calculate_variations solver_id⟩
  | none =>
      match FREQUENCY_MAP.lookup frequency with
      | some mapped =>
          Except.ok ⟨frequency, mapped, solver_id,
            (COLOR_PALETTES.lookup mapped).getD defaultPalette,
            calculate_variations solver_id⟩
      | none => Except.error ("Unsupported wound type: " ++ wound)

/-- Association-list lookup success yields a member pair. -/
lemma lookup_mem {β : Type} :
    ∀ {l : List (String × β)} {k : String} {v : β}, l.lookup k = some v → (k, v) ∈ l := by
  intro l
  induction l with
  | nil => intro k v h; simp [List.lookup] at h
  | cons p rest ih =>
    intro k v h
    obtain ⟨a, b⟩ := p
    rw [List.lookup] at h
    split at h
    · next heq =>
      cases h
      have hk : k = a := eq_of_beq heq
      subst hk
      exact List.mem_cons_self _ _
    · exact List.mem_cons_of_mem _ (ih h)

/-- A successful palette lookup key is one of the seven known wounds. -/
lemma palette_keys {w : String} {pal : Palette}
    (h : COLOR_PALETTES.lookup w = some pal) : w ∈ knownWounds := by
  have hm := lookup_mem h
  simp only [COLOR_PALETTES, List.mem_cons, List.not_mem_nil, or_false,
    Prod.mk.injEq] at hm
  rcases hm with ⟨rfl, -⟩ | ⟨rfl, -⟩ | ⟨rfl, -⟩ | ⟨rfl, -⟩ | ⟨rfl, -⟩ | ⟨rfl, -⟩ | ⟨rfl, -⟩ <;>
    decide

/-- Every value of `FREQUENCY_MAP` is one of the seven known wounds. -/
lemma freq_values {f c : String}
    (h : FREQUENCY_MAP.lookup f = some c) : c ∈ knownWounds := by
  have hm := lookup_mem h
  simp only [FREQUENCY_MAP, List.mem_cons, List.not_mem_nil, or_false,
    Prod.mk.injEq] at hm
  rcases hm with ⟨-, rfl⟩ | ⟨-, rfl⟩ | ⟨-, rfl⟩ | ⟨-, rfl⟩ | ⟨-, rfl⟩ | ⟨-, rfl⟩ | ⟨-, rfl⟩ <;>
    decide

/-- Every known wound has a palette. -/
lemma palette_total : ∀ c ∈ knownWounds, (COLOR_PALETTES.lookup c).isSome := by decide

/-- Structural facts about every successfully constructed generator. -/
lemma init_ok_spec {f w s : String} {g : SigilGenerator}
    (h : SigilGenerator.init f w s = Except.ok g) :
    g.wound ∈ knownWounds ∧
    COLOR_PALETTES.lookup g.wound = some g.colors ∧
    g.frequency = f ∧ g.solver_id = s ∧ g.variations = calculate_variations s := by
  unfold SigilGenerator.init at h
  split at h
  · next pal hp =>
    cases h
    exact ⟨palette_keys hp, hp, rfl, rfl, rfl⟩
  · split at h
    · next mapped hm =>
      cases h
      have hmem := freq_values hm
      obtain ⟨pal, hp⟩ := Option.isSome_iff_exists.mp (palette_total mapped hmem)
      refine ⟨hmem, ?_, rfl, rfl, rfl⟩
      rw [hp]
      rfl
    · cases h

/-! ## Claims C2, C4, C5, C8 about category resolution -/

/-- C2: whenever the case-insensitively normalized category string is a
known category, construction succeeds and resolves to it, whatever the
frequency label is — in particular a frequency label mapping to a different
category does not override it. -/
theorem C2_explicit_category_wins (f w s : String)
    (h : (COLOR_PALETTES.lookup (lowerString w)).isSome) :
    ∃ g, SigilGenerator.init f w s = Except.ok g ∧ g.wound = lowerString w := by
  obtain ⟨pal, hp⟩ := Option.isSome_iff_exists.mp h
  unfold SigilGenerator.init
  rw [hp]
  exact ⟨_, rfl, rfl⟩

/-- C2 witness: category "root" with the conflicting frequency label
"417 Hz" (which maps to "sacral") resolves to "root". -/
theorem C2_witness :
    ∃ g, SigilGenerator.init "417 Hz" "root" "sid" = Except.ok g ∧
      g.wound = lowerString "root" :=
  C2_explicit_category_wins "417 Hz" "root" "sid" (by decide)

/-- C4: construction fails exactly when the normalized category string is
not a palette key and the frequency label is not a `FREQUENCY_MAP` key; the
only error ever raised is the `ValueError` naming the offending wound (and
in the `Except` model a failing construction returns no generator at all,
so no partial state exists). -/
theorem C4_invalid_category (f w s : String) :
    ((∃ e, SigilGenerator.init f w s = Except.error e) ↔
      (COLOR_PALETTES.lookup (lowerString w) = none ∧ FREQUENCY_MAP.lookup f = none)) ∧
    ∀ e, SigilGenerator.init f w s = Except.error e →
      e = "Unsupported wound type: " ++ w := by
  unfold SigilGenerator.init
  cases hpal : COLOR_PALETTES.lookup (lowerString w) with
  | some pal => simp
  | none =>
    cases hfreq : FREQUENCY_MAP.lookup f with
    | some mapped => simp
    | none => simp

/-- C4 witness: category "invalid_wound" with the unmapped frequency label
"999 Hz" raises the error with its exact message. -/
theorem C4_witness :
    SigilGenerator.init "999 Hz" "invalid_wound" "sid" =
      Except.error ("Unsupported wound type: " ++ "invalid_wound") := by
  have h := C4_invalid_category "999 Hz" "invalid_wound" "sid"
  obtain ⟨e, he⟩ := h.1.mpr ⟨by decide, by decide⟩
  rw [h.2 e he] at he
  exact he

/-- C5: whenever the normalized category string is unknown and the frequency
label is a `FREQUENCY_MAP` key, construction succeeds and resolves to the
mapped category. -/
theorem C5_frequency_fallback (f w s c : String)
    (h1 : COLOR_PALETTES.lookup (lowerString w) = none)
    (h2 : FREQUENCY_MAP.lookup f = some c) :
    ∃ g, SigilGenerator.init f w s = Except.ok g ∧ g.wound = c := by
  unfold SigilGenerator.init
  rw [h1, h2]
  exact ⟨_, rfl, rfl⟩

/-- C5 witness: unknown category "anything" with frequency label "417 Hz"
resolves to "sacral". -/
theorem C5_witness :
    COLOR_PALETTES.lookup (lowerString "anything") = none ∧
    FREQUENCY_MAP.lookup "417 Hz" = some "sacral" ∧
    ∃ g, SigilGenerator.init "417 Hz" "anything" "sid" = Except.ok g ∧ g.wound = "sacral" :=
  ⟨by decide, by decide,
    C5_frequency_fallback "417 Hz" "anything" "sid" "sacral" (by decide) (by decide)⟩

/-- C8: the category string is lowercased before its lookup ("ROOT" resolves
to "root"), while the frequency fallback requires exact, case-sensitive
equality on the raw label: with an unknown category, "396 hz" (wrong case)
and "396Hz" (missing space) do not trigger the fallback and construction
fails. -/
theorem C8_case_sensitivity :
    (SigilGenerator.init "999 Hz" "ROOT" "sid").map (fun g => g.wound) =
      Except.ok "root" ∧
    SigilGenerator.init "396 hz" "invalid_wound" "sid" =
      Except.error ("Unsupported wound type: " ++ "invalid_wound") ∧
    SigilGenerator.init "396Hz" "invalid_wound" "sid" =
      Except.error ("Unsupported wound type: " ++ "invalid_wound") :=
  ⟨rfl, rfl, rfl⟩

/-! ## Pure-path model (`pathlib.Path` on POSIX) -/

/-- Split a character list at every slash. -/
def splitSlashAux : List Char → List Char → List (List Char)
  | [], acc => [acc.reverse]
  | c :: rest, acc =>
      if c = '/' then acc.reverse :: splitSlashAux rest []
      else splitSlashAux rest (c :: acc)

/-- The non-empty, non-"." components of a path string, the model of
`PurePosixPath.parts` without the root. -/
def pathComponents (p : String) : List String :=
  ((splitSlashAux p.data []).map String.mk).filter fun c => !(c == "") && !(c == ".")

/-- The root of a POSIX pure path: "//" for exactly two leading slashes,
"/" for one or at least three, "" for a relative path. -/
def leadingSlashes : List Char → Nat
  | '/' :: rest => 1 + leadingSlashes rest
  | _ => 0

/-- The root prefix of a path string. -/
def pathRoot (p : String) : String :=
  if leadingSlashes p.data == 2 then "//"
  else if leadingSlashes p.data ≥ 1 then "/" else ""

/-- Join components with slashes. -/
def joinSlash : List String → String
  | [] => ""
  | [x] => x
  | x :: rest => x ++ "/" ++ joinSlash rest

/-- Model of `str(pathlib.Path(p))`: the normalized form of the path
(empty and "." components dropped, "." for an empty result). -/
def pathStr (p : String) : String :=
  if (pathComponents p).isEmpty then (if pathRoot p == "" then "." else pathRoot p)
  else pathRoot p ++ joinSlash (pathComponents p)

/-- Model of `str(pathlib.Path(p).parent)`. -/
def pathParentStr (p : String) : String :=
  if (pathComponents p).length ≤ 1 then (if pathRoot p == "" then "." else pathRoot p)
  else pathRoot p ++ joinSlash (pathComponents p).dropLast

example : pathStr "a//b.png" = "a/b.png" := by decide
example : pathStr "./x.png" = "x.png" := by decide
example : pathStr "out/sigil.png" = "out/sigil.png" := by decide
example : pathStr "" = "." := by decide
example : pathStr "/" = "/" := by decide
example : pathStr "//" = "//" := by decide
example : pathStr "///" = "/" := by decide
example : pathStr "a/../b" = "a/../b" := by decide
example : pathParentStr "a//b.png" = "a" := by decide
example : pathParentStr "foo.png" = "." := by decide
example : pathParentStr "/a" = "/" := by decide
example : pathParentStr "out/sigil.png" = "out" := by decide

/-! ## Rendering model (PIL canvas and the drawing methods) -/

/-- Abstract trigonometry: models `math.cos(math.radians d)` and
`math.sin(math.radians d)` for an angle `d` in degrees.  The drawing
claims hold for every choice, so the transcendental functions never need
to be evaluated. -/
structure Trig where
  cos : ℚ → ℚ
  sin : ℚ → ℚ

/-- One PIL `ImageDraw` command, recorded with the arguments the source
passes (coordinates in exact arithmetic, arc angles in degrees). -/
inductive DrawOp where
  | polygon (points : List (ℚ × ℚ)) (outline : Nat × Nat × Nat) (width : Nat)
  | line (points : List (ℚ × ℚ)) (fill : Nat × Nat × Nat) (width : Nat)
  | ellipse (bbox : List ℚ) (outline : Nat × Nat × Nat) (width : Nat)
  | arc (bbox : List ℚ) (start stop : ℚ) (fill : Nat × Nat × Nat) (width : Nat)
deriving DecidableEq

/-- A PIL image as created by `Image.new` and drawn on by `ImageDraw`: the
mode, dimensions and initial fill color of the canvas, plus the list of
drawing commands subsequently issued on it. -/
structure PILImage where
  mode : String
  width : Nat
  height : Nat
  fillColor : Nat × Nat × Nat
  ops : List DrawOp
deriving DecidableEq

/-- Model of `SigilGenerator._draw_root_geometry`: concentric rotated
squares, then grounding rays. -/
def SigilGenerator.draw_root_geometry (g : SigilGenerator) (t : Trig)
    (center : ℚ × ℚ) (size : Nat) : List DrawOp :=
  let cx := center.1
  let cy := center.2
  let scale := (size : ℚ) * g.variations.scale_factor
  let rotation := g.variations.rotation_offset
  ((List.range g.variations.layer_count).map fun i =>
    let layer_size := scale * (1 - (i : ℚ) * (2 / 10))
    let angle_offset := rotation + (i : ℚ) * 15
    let points := (List.range 4).map fun j =>
      let angle := angle_offset + (j : ℚ) * 90
      (cx + layer_size * t.cos angle, cy + layer_size * t.sin angle)
    let color := if i == 0 then g.colors.primary
                 else if i % 2 == 0 then g.colors.secondary else g.colors.accent
    DrawOp.polygon points color g.variations.line_weight) ++
  ((List.range g.variations.ray_count).map fun i =>
    let angle := rotation + 360 / (g.variations.ray_count : ℚ) * (i : ℚ)
    let x_end := cx + scale * (13 / 10) * t.cos angle
    let y_end := cy + scale * (13 / 10) * t.sin angle
    DrawOp.line [(cx, cy), (x_end, y_end)] g.colors.accent g.variations.line_weight)

/-- Model of `SigilGenerator._draw_sacral_geometry`: concentric circles,
then half-circle arcs around the center. -/
def SigilGenerator.draw_sacral_geometry (g : SigilGenerator) (t : Trig)
    (center : ℚ × ℚ) (size : Nat) : List DrawOp :=
  let cx := center.1
  let cy := center.2
  let scale := (size : ℚ) * g.variations.scale_factor
  let rotation := g.variations.rotation_offset
  ((List.range g.variations.layer_count).map fun i =>
    let radius := scale * (1 - (i : ℚ) * (18 / 100))
    let color := if i == 0 then g.colors.primary
                 else if i % 2 == 0 then g.colors.secondary else g.colors.accent
    DrawOp.ellipse [cx - radius, cy - radius, cx + radius, cy + radius]
      color g.variations.line_weight) ++
  ((List.range g.variations.ray_count).map fun i =>
    let angle := rotation + 360 / (g.variations.ray_count : ℚ) * (i : ℚ)
    let curve_x := cx + scale * (8 / 10) * t.cos angle
    let curve_y := cy + scale * (8 / 10) * t.sin angle
    let curve_radius := scale * (3 / 10)
    DrawOp.arc [curve_x - curve_radius, curve_y - curve_radius,
      curve_x + curve_radius, curve_y + curve_radius]
      angle (angle + 180) g.colors.accent g.variations.line_weight)

/-- Model of `SigilGenerator._draw_solar_plexus_geometry`: concentric
rotated triangles, then alternating-length sunburst rays. -/
def SigilGenerator.draw_solar_plexus_geometry (g : SigilGenerator) (t : Trig)
    (center : ℚ × ℚ) (size : Nat) : List DrawOp :=
  let cx := center.1
  let cy := center.2
  let scale := (size : ℚ) * g.variations.scale_factor
  let rotation := g.variations.rotation_offset
  ((List.range g.variations.layer_count).map fun i =>
    let layer_size := scale * (1 - (i : ℚ) * (2 / 10))
    let angle_offset := rotation + (i : ℚ) * 20
    let points := (List.range 3).map fun j =>
      let angle := angle_offset + (j : ℚ) * 120
      (cx + layer_size * t.cos angle, cy + layer_size * t.sin angle)
    let color := if i == 0 then g.colors.primary
                 else if i % 2 == 0 then g.colors.secondary else g.colors.accent
    DrawOp.polygon points color g.variations.line_weight) ++
  ((List.range (g.variations.ray_count * 2)).map fun i =>
    let angle := rotation + 360 / ((g.variations.ray_count : ℚ) * 2) * (i : ℚ)
    let ray_length := if i % 2 == 0 then scale * (14 / 10) else scale * (11 / 10)
    let color := if i % 2 == 0 then g.colors.primary else g.colors.accent
    DrawOp.line [(cx, cy), (cx + ray_length * t.cos angle, cy + ray_length * t.sin angle)]
      color g.variations.line_weight)

/-- The observable effects of one `generate` call: the directory created by
`mkdir(parents=True, exist_ok=True)`, the image constructed and drawn, the
path the image is saved at, and the returned value. -/
structure GenerateResult where
  createdDir : String
  image : PILImage
  savedPath : String
  returned : String
deriving DecidableEq

/-- Model of `SigilGenerator.generate` (the source defaults `image_size` to
512).  The method mutates no attribute of `self`, which the state-passing
model makes explicit by returning the generator alongside the result. -/
def SigilGenerator.generate (g : SigilGenerator) (t : Trig) (output_path : String)
    (image_size : Nat) : SigilGenerator × GenerateResult :=
  let center : ℚ × ℚ := ((image_size / 2 : Nat), (image_size / 2 : Nat))
  let geometry_size := image_size / 3
  let ops :=
    if g.wound == "root" then g.draw_root_geometry t center geometry_size
    else if g.wound == "sacral" then g.draw_sacral_geometry t center geometry_size
    else if g.wound == "solar_plexus" then g.draw_solar_plexus_geometry t center geometry_size
    else (List.range g.variations.layer_count).map fun i =>
      let radius := (geometry_size : ℚ) * (1 - (i : ℚ) * (2 / 10))
      let color := if i % 2 == 0 then g.colors.primary else g.colors.secondary
      DrawOp.ellipse [center.1 - radius, center.2 - radius,
        center.1 + radius, center.2 + radius] color g.variations.line_weight
  (g,
   { createdDir := pathParentStr output_path
     image := { mode := "RGB", width := image_size, height := image_size,
                fillColor := g.colors.background, ops := ops }
     savedPath := pathStr output_path
     returned := pathStr output_path })

/-- The source's default canvas side length. -/
def defaultImageSize : Nat := 512

/-! ## Claims C7 and C9 about `generate` and instance invariants -/

/-- Example generator used by concrete witnesses: the spec's concrete vector
(frequency "396 Hz", category "root", seed "solver123"). -/
def sampleGen : SigilGenerator :=
  match SigilGenerator.init "396 Hz" "root" "solver123" with
  | Except.ok g => g
  | Except.error _ => ⟨"", "", "", defaultPalette, calculate_variations ""⟩

/-- Trig instance used by concrete witnesses (the claims hold for every
instance, so its values are irrelevant). -/
def zeroTrig : Trig := ⟨fun _ => 0, fun _ => 0⟩

/-- C7 (amended): for every constructed generator, output path and size,
`generate` asks for the parent directory of the output path to be created,
builds a square RGB canvas of side exactly `image_size` (callers that omit
the argument get `defaultImageSize = 512`) filled with the resolved
category's background color before any geometry is drawn, and saves to and
returns `str(Path(output_path))` — the pathlib-normalized form of the
requested path, which equals the requested path whenever it is already
normalized. -/
theorem C7_generate_output (f w s : String) (g : SigilGenerator)
    (hg : SigilGenerator.init f w s = Except.ok g)
    (t : Trig) (p : String) (n : Nat) :
    (g.generate t p n).2.image.mode = "RGB" ∧
    (g.generate t p n).2.image.width = n ∧
    (g.generate t p n).2.image.height = n ∧
    COLOR_PALETTES.lookup g.wound = some g.colors ∧
    (g.generate t p n).2.image.fillColor = g.colors.background ∧
    (g.generate t p n).2.createdDir = pathParentStr p ∧
    (g.generate t p n).2.savedPath = pathStr p ∧
    (g.generate t p n).2.returned = pathStr p :=
  ⟨rfl, rfl, rfl, (init_ok_spec hg).2.1, rfl, rfl, rfl, rfl⟩

/-- C7 witness: the root generator for seed "solver123" at size 256 and
path "out/sigil.png". -/
theorem C7_witness :
    (sampleGen.generate zeroTrig "out/sigil.png" 256).2.image.mode = "RGB" ∧
    (sampleGen.generate zeroTrig "out/sigil.png" 256).2.image.width = 256 ∧
    (sampleGen.generate zeroTrig "out/sigil.png" 256).2.image.height = 256 ∧
    COLOR_PALETTES.lookup sampleGen.wound = some sampleGen.colors ∧
    (sampleGen.generate zeroTrig "out/sigil.png" 256).2.image.fillColor =
      sampleGen.colors.background ∧
    (sampleGen.generate zeroTrig "out/sigil.png" 256).2.createdDir =
      pathParentStr "out/sigil.png" ∧
    (sampleGen.generate zeroTrig "out/sigil.png" 256).2.savedPath =
      pathStr "out/sigil.png" ∧
    (sampleGen.generate zeroTrig "out/sigil.png" 256).2.returned =
      pathStr "out/sigil.png" :=
  C7_generate_output "396 Hz" "root" "solver123" sampleGen rfl
    zeroTrig "out/sigil.png" 256

/-- C7 counterexample to the claim as stated: the returned path is the
pathlib-normalized string, so for the non-normalized request
"out//sigil.png" it differs from the requested path (it is "out/sigil.png"). -/
theorem C7_counterexample :
    (sampleGen.generate zeroTrig "out//sigil.png" 256).2.returned ≠
      "out//sigil.png" := by decide

/-- C9: every successfully constructed generator has a resolved category
among the seven enumerated ones, stores exactly the palette table's entry
for that category, stores exactly the parameters derived from its seed, and
is left unchanged by every `generate` call (the state-passing model returns
the post-call generator, which is always the input one). -/
theorem C9_construction_invariants (f w s : String) (g : SigilGenerator)
    (hg : SigilGenerator.init f w s = Except.ok g) :
    g.wound ∈ knownWounds ∧
    COLOR_PALETTES.lookup g.wound = some g.colors ∧
    g.variations = calculate_variations g.solver_id ∧
    ∀ (t : Trig) (p : String) (n : Nat), (g.generate t p n).1 = g := by
  obtain ⟨h1, h2, -, h4, h5⟩ := init_ok_spec hg
  refine ⟨h1, h2, ?_, fun t p n => rfl⟩
  rw [h4]
  exact h5

/-- C9 witness: the root generator for seed "solver123". -/
theorem C9_witness :
    sampleGen.wound ∈ knownWounds ∧
    COLOR_PALETTES.lookup sampleGen.wound = some sampleGen.colors ∧
    sampleGen.variations = calculate_variations sampleGen.solver_id ∧
    (sampleGen.generate zeroTrig "out/sigil.png" 64).1 = sampleGen := by
  have h := C9_construction_invariants "396 Hz" "root" "solver123" sampleGen rfl
  exact ⟨h.1, h.2.1, h.2.2.1, h.2.2.2 zeroTrig "out/sigil.png" 64⟩

/-! ## `FrequencyMapper` (`terra_gaia/translator/frequency.py`) -/

/-- The mapper's three dictionaries, as ordered association lists (Python
dicts preserve insertion order); frequencies are numeric, modelled as ℚ. -/
structure FrequencyMapper where
  chakra_mappings : List (String × ℚ × ℚ)
  breath_patterns : List (String × String)
  visualizations : List (String × String)

/-- Iteration of `map_frequency_to_chakra` over the mapping items: return
the first chakra whose inclusive range contains the frequency. -/
def mapFreqAux (frequency : ℚ) : List (String × ℚ × ℚ) → Option String
  | [] => none
  | (chakra, freq_range) :: rest =>
      if freq_range.1 ≤ frequency ∧ frequency ≤ freq_range.2 then some chakra
      else mapFreqAux frequency rest

/-- Model of `FrequencyMapper.map_frequency_to_chakra`. -/
def FrequencyMapper.map_frequency_to_chakra (m : FrequencyMapper) (frequency : ℚ) :
    Option String :=
  mapFreqAux frequency m.chakra_mappings

/-- Model of `FrequencyMapper.get_breath_pattern_for_chakra`. -/
def FrequencyMapper.get_breath_pattern_for_chakra (m : FrequencyMapper)
    (chakra : String) : String :=
  (m.breath_patterns.lookup chakra).getD "Default Pattern"

/-- Model of `FrequencyMapper.get_visualization_for_chakra`. -/
def FrequencyMapper.get_visualization_for_chakra (m : FrequencyMapper)
    (chakra : String) : String :=
  (m.visualizations.lookup chakra).getD "Default Visualization"

/-- The module-level `chakra_mappings` example table of the source. -/
def chakra_mappings : List (String × ℚ × ℚ) :=
  [("Root", 20, 30), ("Sacral", 31, 40), ("Solar Plexus", 41, 50),
   ("Heart", 51, 60), ("Throat", 61, 70), ("Third Eye", 71, 80), ("Crown", 81, 90)]

/-- The module-level `breath_patterns` table of the source. -/
def breath_patterns : List (String × String) :=
  [("Root", "Deep Belly Breathing"), ("Sacral", "Pelvic Expansion Breathing"),
   ("Solar Plexus", "Fire Breath"), ("Heart", "Heart-Centered Breathing"),
   ("Throat", "Resonant Humming"), ("Third Eye", "Alternate Nostril Breathing"),
   ("Crown", "Crown Channeling Breath")]

/-- The module-level `visualizations` table of the source. -/
def visualizations : List (String × String) :=
  [("Root", "Red Earth Energy"), ("Sacral", "Orange Flowing Water"),
   ("Solar Plexus", "Yellow Radiant Sun"), ("Heart", "Green Expanding Love"),
   ("Throat", "Blue Vibrating Wave"), ("Third Eye", "Indigo Cosmic Light"),
   ("Crown", "Violet Divine Light")]

/-- The module-level `frequency_mapper` instance of the source. -/
def frequency_mapper : FrequencyMapper :=
  ⟨chakra_mappings, breath_patterns, visualizations⟩

/-- The iteration returns the first list entry whose inclusive range
contains the frequency. -/
lemma mapFreqAux_eq_find (f : ℚ) : ∀ l : List (String × ℚ × ℚ),
    mapFreqAux f l =
      (l.find? fun e => decide (e.2.1 ≤ f ∧ f ≤ e.2.2)).map Prod.fst := by
  intro l
  induction l with
  | nil => rfl
  | cons e rest ih =>
    obtain ⟨chakra, lo, hi⟩ := e
    by_cases h : lo ≤ f ∧ f ≤ hi
    · rw [List.find?_cons_of_pos _ (by simpa using h)]
      simp only [mapFreqAux]
      rw [if_pos h]
      rfl
    · rw [List.find?_cons_of_neg _ (by simpa using h)]
      simp only [mapFreqAux]
      rw [if_neg h]
      exact ih

/-- C10: `map_frequency_to_chakra` returns the first chakra of the mapping
whose inclusive range [lo, hi] contains the frequency, and returns `none`
(a value, not an error) whenever no range contains it — in particular for
any value falling in a gap between consecutive ranges. -/
theorem C10_map_frequency_first_match (m : FrequencyMapper) (f : ℚ) :
    (m.map_frequency_to_chakra f =
      (m.chakra_mappings.find? fun e => decide (e.2.1 ≤ f ∧ f ≤ e.2.2)).map Prod.fst) ∧
    ((∀ e ∈ m.chakra_mappings, ¬ (e.2.1 ≤ f ∧ f ≤ e.2.2)) →
      m.map_frequency_to_chakra f = none) := by
  refine ⟨mapFreqAux_eq_find f m.chakra_mappings, fun hall => ?_⟩
  rw [FrequencyMapper.map_frequency_to_chakra, mapFreqAux_eq_find f m.chakra_mappings,
    List.find?_eq_none.mpr fun e he => by simpa using hall e he]
  rfl

/-- C10 witness: the non-integer frequency 30.5 = 61/2 falls in the gap
between the "Root" range (20,30) and the "Sacral" range (31,40) of the
source's mapping, and the mapper returns `none` for it. -/
theorem C10_witness :
    frequency_mapper.map_frequency_to_chakra (61 / 2) = none := by
  refine (C10_map_frequency_first_match frequency_mapper (61 / 2)).2 ?_
  intro e he
  simp only [frequency_mapper, chakra_mappings, List.mem_cons,
    List.not_mem_nil, or_false] at he
  rcases he with rfl | rfl | rfl | rfl | rfl | rfl | rfl <;> norm_num

/-- Conformance with the source's example run: frequency 45 maps to
"Solar Plexus" (first matching range wins). -/
example : frequency_mapper.map_frequency_to_chakra 45 = some "Solar Plexus" := by
  norm_num [FrequencyMapper.map_frequency_to_chakra, frequency_mapper,
    chakra_mappings, mapFreqAux]

end WoundTranslation
